import Mathlib

/-!
Shallow embedding of the food-planner application (Flask + SQLite) in Lean 4,
used to check the natural-language specification against the code.

Conventions of the embedding:
* Python numbers are modelled by `ℚ` (the code only adds, multiplies and
  divides by 100, so exact rationals are the standard shallow model of its
  float arithmetic).
* A value parsed from a JSON text column is a `JVal`; the raw TEXT column is a
  `StoredText`, which records whether the text is falsy (NULL or the empty
  string), rejected by `json.loads`, or parsed to a given `JVal`.  We do not
  re-implement the JSON grammar: `StoredText.parsed j` stands for any text
  that `json.loads` maps to `j`.
* A fallible Python computation (one that can raise) is an `Option`; `none`
  is an uncaught exception at that level.
* `datetime` values are a calendar-day number (days since the epoch, `Int`)
  plus the second of the day; `date()` projects the day number.
* Calls to the `random` module are driven by explicit oracle values: an
  outcome of a float comparison such as `random.random() < p` is a `Bool`
  oracle, and `random.randint(a, b)` / `random.choice(xs)` consume a `Nat`
  seed reduced into the required range, which reaches every allowed value.
-/

/-- JSON value as produced by Python `json.loads`, with numbers as `ℚ`. -/
inductive JVal where
  | jnull : JVal
  | jbool : Bool → JVal
  | jnum : ℚ → JVal
  | jstr : String → JVal
  | jobj : List (String × JVal) → JVal

/-- Whether the value is Python `None`. -/
def JVal.isNull : JVal → Bool
  | .jnull => true
  | _ => false

/-- Nonempty all-digit character list read as a decimal `Nat`. -/
def digitsVal : List Char → Option Nat
  | [] => none
  | cs => cs.foldl (fun acc c => match acc with
      | none => none
      | some n => if c.isDigit then some (n * 10 + (c.toNat - 48)) else none)
      (some 0)

/-- Decimal string accepted by Python `float`: optional sign, digits with an
optional fractional part (exponent and special forms are not needed by any
claim and are treated as unparseable). -/
def parseDecimal : String → Option ℚ :=
  fun s =>
    let cs := s.toList
    let body : List Char → Option ℚ := fun l =>
      match l.splitOn '.' with
      | [intPart] => (digitsVal intPart).map (fun n => (n : ℚ))
      | [intPart, fracPart] =>
          match digitsVal intPart, digitsVal fracPart with
          | some n, some f => some ((n : ℚ) + (f : ℚ) / ((10 : ℚ) ^ fracPart.length))
          | _, _ => none
      | _ => none
    match cs with
    | '-' :: rest => (body rest).map (fun q => -q)
    | '+' :: rest => body rest
    | _ => body cs

/-- Python `float(v)` on a JSON value: numbers and booleans convert, strings
convert when they are decimal literals, everything else raises
(`ValueError` / `TypeError`), modelled as `none`. -/
def pyFloat : JVal → Option ℚ
  | .jnum q => some q
  | .jbool b => some (if b then 1 else 0)
  | .jstr s => parseDecimal s
  | .jnull => none
  | .jobj _ => none

/-- Python `dict.get(k, dflt)` on a parsed JSON value; a non-object receiver
raises `AttributeError` (`none`). -/
def pyDictGet (j : JVal) (k : String) (dflt : JVal) : Option JVal :=
  match j with
  | .jobj fields => some ((fields.lookup k).getD dflt)
  | _ => none

/-- A TEXT column holding (possibly) JSON: falsy (NULL or the empty string),
text rejected by `json.loads`, or text parsed to a `JVal`. -/
inductive StoredText where
  | empty : StoredText
  | invalid : StoredText
  | parsed : JVal → StoredText

/-- Python `datetime`: day number since the epoch and second of the day.
`replace(hour=h, minute=m, second=0, microsecond=0)` only rewrites `sod`. -/
structure PyDateTime where
  day : Int
  sod : Nat
deriving DecidableEq

/-- Order on datetimes (lexicographic: day, then second of day). -/
def dtLe (a b : PyDateTime) : Bool :=
  a.day < b.day || (a.day == b.day && a.sod ≤ b.sod)

/-- The date part: `dt.date()`. -/
def dateOf (dt : PyDateTime) : Int := dt.day

/-- Replace the time of day, keeping the calendar day
(`current_date.replace(hour=h, minute=m, second=0, microsecond=0)`). -/
def mkTime (dt : PyDateTime) (h m : Nat) : PyDateTime :=
  ⟨dt.day, h * 3600 + m * 60⟩

/-- `datetime.weekday()` (Monday = 0); day 0 of the epoch is a Thursday. -/
def pyWeekday (day : Int) : Int := (day + 3) % 7

/-- `random.randint(a, b)` driven by a seed: an arbitrary value of `[a, b]`.
Every value of the range is realised as the seed varies. -/
def pyRandInt (a b s : Nat) : Nat := a + s % (b - a + 1)

/-- `random.choice(xs)` driven by a seed; the empty list raises `IndexError`. -/
def pyChoice {α : Type} (xs : List α) (s : Nat) : Option α :=
  xs.get? (s % xs.length)

/-- Character-list prefix test (used for substring search). -/
def isPrefixList : List Char → List Char → Bool
  | [], _ => true
  | _ :: _, [] => false
  | a :: as, b :: bs => a == b && isPrefixList as bs

/-- Python `needle in haystack` on strings, as character lists. -/
def listContains (hay need : List Char) : Bool :=
  match hay with
  | [] => need.isEmpty
  | _ :: t => isPrefixList need hay || listContains t need

/-- Python `sub.lower() in s.lower()`. -/
def strContainsLower (s sub : String) : Bool :=
  listContains (s.toList.map Char.toLower) (sub.toList.map Char.toLower)

/-! ### models.py -/

/-- `Food` (models.py): only the `nutrition_data` TEXT column matters to the
claims.  `StoredText.empty` covers both a NULL column and the empty string,
which `get_nutrition_data` treats alike (falsy). -/
structure Food where
  nutrition_data : StoredText

/-- `Food.get_nutrition_data`: `json.loads(self.nutrition_data)` when the
column is truthy, else `{}`; there is no exception handler, so text rejected
by `json.loads` raises (`none`). -/
def Food.get_nutrition_data (f : Food) : Option JVal :=
  match f.nutrition_data with
  | .empty => some (.jobj [])
  | .invalid => none
  | .parsed j => some j

/-- `Food.get_calories_per_100g`: `nutrition.get('calories_per_100g', 0)`. -/
def Food.get_calories_per_100g (f : Food) : Option JVal := do
  let nutrition ← f.get_nutrition_data
  pyDictGet nutrition "calories_per_100g" (.jnum 0)

/-- `FoodLog` (models.py) with its `food` backref inlined. -/
structure FoodLog where
  user_id : Nat
  food : Food
  quantity : ℚ
  meal_type : String
  logged_at : PyDateTime

/-- `FoodLog.get_calories`: look up `calories_per_100g` with default 0, force
it numeric inside a try/except (`None` and conversion failures become 0), and
return `calories_per_100g * quantity / 100`.  The `json.loads` and the
`.get` happen outside the try block, so they can still raise (`none`). -/
def FoodLog.get_calories (log : FoodLog) : Option ℚ := do
  let food_nutrition ← log.food.get_nutrition_data
  let v ← pyDictGet food_nutrition "calories_per_100g" (.jnum 0)
  let calories_per_100g : ℚ := if v.isNull then 0 else (pyFloat v).getD 0
  pure (calories_per_100g * log.quantity / 100)

/-- `FoodLog.get_nutrients`: scale every numeric entry of the food's
nutrition dict by `quantity / 100`; a `None` value is coerced to 0 by the
explicit conditional, and a value `float` rejects is skipped (`continue`).
Iterating over a non-dict raises (`none`). -/
def FoodLog.get_nutrients (log : FoodLog) : Option (List (String × ℚ)) := do
  let food_nutrition ← log.food.get_nutrition_data
  match food_nutrition with
  | .jobj fields =>
      pure (fields.filterMap (fun kv =>
        match (if kv.2.isNull then some 0 else pyFloat kv.2) with
        | some numeric_value => some (kv.1, numeric_value * log.quantity / 100)
        | none => none))
  | _ => none

/-! ### routes/api.py and routes/dashboard.py aggregators -/

/-- Dict-of-buckets update: create the bucket as `init` when the key is
absent (appending preserves Python dict insertion order), then apply `f`. -/
def bucketUpd {κ β : Type} [DecidableEq κ] (m : List (κ × β)) (k : κ) (init : β)
    (f : β → β) : List (κ × β) :=
  match m with
  | [] => [(k, f init)]
  | (k0, b) :: rest =>
      if k0 = k then (k0, f b) :: rest else (k0, b) :: bucketUpd rest k init f

/-- The per-date bucket of `api.nutrition_summary`. -/
structure ApiDayBucket where
  calories : ℚ
  protein : ℚ
  carbs : ℚ
  fat : ℚ
  items : Nat
deriving DecidableEq

/-- Fresh bucket: all fields 0. -/
def apiEmptyBucket : ApiDayBucket := ⟨0, 0, 0, 0, 0⟩

/-- One log's contribution in `api.nutrition_summary`: add its calories and
count it, then for protein/carbs/fat add `nutrients[f'(nutrient)_per_100g']`
when that key is present. -/
def apiLogUpd (c : ℚ) (ns : List (String × ℚ)) (b : ApiDayBucket) : ApiDayBucket :=
  let b := { b with calories := b.calories + c, items := b.items + 1 }
  let b := if (ns.lookup "protein_per_100g").isSome
    then { b with protein := b.protein + (ns.lookup "protein_per_100g").getD 0 } else b
  let b := if (ns.lookup "carbs_per_100g").isSome
    then { b with carbs := b.carbs + (ns.lookup "carbs_per_100g").getD 0 } else b
  if (ns.lookup "fat_per_100g").isSome
    then { b with fat := b.fat + (ns.lookup "fat_per_100g").getD 0 } else b

/-- The daily loop of `api.nutrition_summary`; an exception from
`get_calories` or `get_nutrients` aborts the request (`none`). -/
def apiDaily : List FoodLog → List (Int × ApiDayBucket) →
    Option (List (Int × ApiDayBucket))
  | [], acc => some acc
  | log :: rest, acc => do
      let c ← log.get_calories
      let ns ← log.get_nutrients
      apiDaily rest (bucketUpd acc (dateOf log.logged_at) apiEmptyBucket (apiLogUpd c ns))

/-- `sum(log.get_calories() for log in logs)`. -/
def sumCaloriesM : List FoodLog → Option ℚ
  | [] => some 0
  | log :: rest => do
      let c ← log.get_calories
      let s ← sumCaloriesM rest
      pure (c + s)

/-- The SQLAlchemy filter shared by the summary views: this user's logs whose
calendar date lies in the closed range. -/
def logsInRange (userId : Nat) (logs : List FoodLog) (startD endD : Int) : List FoodLog :=
  logs.filter (fun log =>
    log.user_id == userId && decide (startD ≤ dateOf log.logged_at)
      && decide (dateOf log.logged_at ≤ endD))

/-- The summary JSON of `api.nutrition_summary` (dates keyed by day number;
`isoformat` is an injective encoding of the date). -/
structure ApiSummary where
  total_calories : ℚ
  total_items : Nat
  avg_daily_calories : ℚ
  daily_data : List (Int × ApiDayBucket)
  calorie_goal : Int
  period_days : Int
deriving DecidableEq

/-- `api.nutrition_summary` (routes/api.py): `days` is the query parameter
(default 7), `today` the server date.  `none` models the except branch that
returns a 500 response. -/
def nutrition_summary (userId : Nat) (goal : Int) (allLogs : List FoodLog)
    (days : Int) (today : Int) : Option ApiSummary := do
  let start_date := today - (days - 1)
  let logs := logsInRange userId allLogs start_date today
  let total_calories ← sumCaloriesM logs
  let daily_data ← apiDaily logs []
  let avg_daily_calories : ℚ := if 0 < days then total_calories / (days : ℚ) else 0
  pure ⟨total_calories, logs.length, avg_daily_calories, daily_data, goal, days⟩

/-- Fresh per-date dict of `dashboard.nutrition`, in insertion order. -/
def nutInitBucket : List (String × ℚ) :=
  [("calories", 0), ("protein", 0), ("carbs", 0), ("fat", 0),
   ("fiber", 0), ("sugar", 0), ("sodium", 0)]

/-- `if key in bucket: bucket[key] += v` on a dict modelled as an
association list; an absent key leaves the dict unchanged. -/
def addIfPresent (b : List (String × ℚ)) (k : String) (v : ℚ) : List (String × ℚ) :=
  match b with
  | [] => []
  | (k0, x) :: rest =>
      if k0 = k then (k0, x + v) :: rest else (k0, x) :: addIfPresent rest k v

/-- One log's contribution in `dashboard.nutrition`: add the calories to the
`calories` entry, then for each key of `get_nutrients` add its value when the
same key names a bucket entry. -/
def nutLogUpd (c : ℚ) (ns : List (String × ℚ)) (b : List (String × ℚ)) :
    List (String × ℚ) :=
  let b := addIfPresent b "calories" c
  ns.foldl (fun b kv => addIfPresent b kv.1 kv.2) b

/-- The aggregation loop of `dashboard.nutrition`.  `log.get_calories() or 0`
is the identity on a rational result, so it is modelled by the value itself. -/
def dashDaily : List FoodLog → List (Int × List (String × ℚ)) →
    Option (List (Int × List (String × ℚ)))
  | [], acc => some acc
  | log :: rest, acc => do
      let c ← log.get_calories
      let ns ← log.get_nutrients
      dashDaily rest (bucketUpd acc (dateOf log.logged_at) nutInitBucket (nutLogUpd c ns))

/-- `dashboard.nutrition` (routes/dashboard.py): the per-date nutrition map
rendered by the template.  `none` models an unhandled exception (Flask 500). -/
def dashboard_nutrition (userId : Nat) (allLogs : List FoodLog) (days : Int)
    (today : Int) : Option (List (Int × List (String × ℚ))) := do
  let start_date := today - (days - 1)
  let logs := logsInRange userId allLogs start_date today
  dashDaily logs []

/-- Result of `dashboard.analytics`. -/
structure AnalyticsResult where
  meal_patterns : List (String × Nat)
  daily_calories : List (Int × ℚ)
  avg_daily_calories : ℚ
  total_days : Nat
  chart_dates : List Int
  chart_calories : List ℚ
  chart_goal : List Int
deriving DecidableEq

/-- The analytics loop: count each meal type and accumulate each log's
calories into its calendar date. -/
def analyticsFold : List FoodLog → List (String × Nat) → List (Int × ℚ) →
    Option (List (String × Nat) × List (Int × ℚ))
  | [], mp, dc => some (mp, dc)
  | log :: rest, mp, dc => do
      let c ← log.get_calories
      analyticsFold rest (bucketUpd mp log.meal_type 0 (fun n => n + 1))
        (bucketUpd dc (dateOf log.logged_at) 0 (fun q => q + c))

/-- `dashboard.analytics` (routes/dashboard.py): last-30-days analytics.  The
query filter has only a lower date bound, and the average divides by the
number of dates that have entries. -/
def analytics (userId : Nat) (goal : Int) (allLogs : List FoodLog)
    (today : Int) : Option AnalyticsResult := do
  let start_date := today - 30
  let logs := allLogs.filter (fun log =>
    log.user_id == userId && decide (start_date ≤ dateOf log.logged_at))
  let (mp, dc) ← analyticsFold logs [] []
  let total_days := dc.length
  let avg : ℚ := if 0 < total_days then (dc.map Prod.snd).sum / (total_days : ℚ) else 0
  let sortedDates := (dc.map Prod.fst).mergeSort (fun a b => a ≤ b)
  pure ⟨mp, dc, avg, total_days, sortedDates,
    sortedDates.map (fun d => (dc.lookup d).getD 0),
    List.replicate dc.length goal⟩

/-! ### services/simple_demo_generator.py -/

/-- `MEAL_PATTERNS[meal_type]['calorie_range']`; an unknown key raises
`KeyError` (`none`).  (The field is present in the table but unused by the
generator logic.) -/
def MEAL_PATTERNS_calorie_range : String → Option (Nat × Nat)
  | "breakfast" => some (300, 600)
  | "lunch" => some (400, 800)
  | "dinner" => some (500, 900)
  | "snack" => some (100, 300)
  | _ => none

/-- `MEAL_PATTERNS[meal_type]['foods']`. -/
def MEAL_PATTERNS_foods : String → Option (List String)
  | "breakfast" => some ["Oatmeal", "Greek Yogurt", "Banana", "Eggs",
      "Whole Wheat Bread", "Avocado", "Almonds", "Organic Quinoa"]
  | "lunch" => some ["Chicken Breast", "Brown Rice", "Broccoli", "Salmon Fillet",
      "Sweet Potato", "Turkey Sandwich", "Caesar Salad", "Quinoa", "Spinach"]
  | "dinner" => some ["Salmon Fillet", "Chicken Breast", "Brown Rice", "Sweet Potato",
      "Broccoli", "Spinach", "Quinoa", "Pizza Slice", "Burger with Fries"]
  | "snack" => some ["Almonds", "Banana", "Greek Yogurt", "Red Seedless Grapes",
      "Dark Chocolate 85% Cacao", "Avocado"]
  | _ => none

/-- `MEAL_PATTERNS[meal_type]['quantities']`. -/
def MEAL_PATTERNS_quantities : String → Option (Nat × Nat)
  | "breakfast" => some (80, 150)
  | "lunch" => some (100, 200)
  | "dinner" => some (120, 250)
  | "snack" => some (30, 100)
  | _ => none

/-- `SEASONAL_FOODS.get(season, [])`. -/
def SEASONAL_FOODS : String → List String
  | "winter" => ["Campbell\x27s Tomato Soup", "Oatmeal", "Sweet Potato"]
  | "spring" => ["Spinach", "Broccoli", "Salmon Fillet"]
  | "summer" => ["Red Seedless Grapes", "Banana", "Caesar Salad"]
  | "autumn" => ["Sweet Potato", "Quinoa", "Dark Chocolate 85% Cacao"]
  | _ => []

/-- `get_season`: season from the month of the date. -/
def get_season (month : Nat) : String :=
  if [12, 1, 2].contains month then "winter"
  else if [3, 4, 5].contains month then "spring"
  else if [6, 7, 8].contains month then "summer"
  else "autumn"

/-- A row of `SELECT id, name, nutrition_data FROM food WHERE nutrition_data
IS NOT NULL`. -/
structure FoodRow where
  id : Nat
  name : String
  nutrition_data : StoredText

/-- `select_realistic_food_for_meal`: build the preference pool (seasonal
foods joined in when the 30% roll succeeds and the season has foods), keep
the catalog rows whose name contains a pool entry case-insensitively, fall
back to the whole catalog when nothing matches, and pick one at random. -/
def select_realistic_food_for_meal (meal_type : String)
    (available_foods : List FoodRow) (season : String)
    (seasonalRoll : Bool) (choiceSeed : Nat) : Option FoodRow := do
  let meal_foods ← MEAL_PATTERNS_foods meal_type
  let seasonal_foods := SEASONAL_FOODS season
  let food_pool := if seasonalRoll && !seasonal_foods.isEmpty
    then meal_foods ++ seasonal_foods else meal_foods
  let matching_foods := available_foods.filter (fun f =>
    food_pool.any (fun p => strContainsLower f.name p))
  let matching_foods := if matching_foods.isEmpty then available_foods else matching_foods
  pyChoice matching_foods choiceSeed

/-- `get_realistic_quantity_for_meal`: classify the food by
`calories_per_100g` (default 200, also used when `json.loads` fails or the
value is `None` or non-numeric) and draw from the matching range.  A parsed
non-dict makes `.get` raise `AttributeError`, which the except clause does
not list, so it propagates (`none`). -/
def get_realistic_quantity_for_meal (meal_type : String)
    (nutrition_json : StoredText) (qtySeed : Nat) : Option Nat := do
  let base_range ← MEAL_PATTERNS_quantities meal_type
  let calories_per_100g : ℚ ←
    match nutrition_json with
    | .empty => some 200
    | .invalid => some 200
    | .parsed (.jobj fields) =>
        let v := (fields.lookup "calories_per_100g").getD (.jnum 200)
        some (if v.isNull then 200 else (pyFloat v).getD 200)
    | .parsed _ => none
  pure (if 500 < calories_per_100g then pyRandInt 15 50 qtySeed
    else if 300 < calories_per_100g then pyRandInt 50 120 qtySeed
    else pyRandInt base_range.1 base_range.2 qtySeed)

/-- Random draws consumed by one meal block of the generator. -/
structure MealDraw where
  seasonalRoll : Bool
  choiceSeed : Nat
  qtySeed : Nat
  hourSeed : Nat
  minuteSeed : Nat

/-- Random draws consumed by one snack iteration. -/
structure SnackDraw where
  doSnack : Bool
  draw : MealDraw

/-- Random draws consumed by one day of the generator loop. -/
structure DayDraw where
  logRoll : Bool
  doBreakfast : Bool
  breakfastDraw : MealDraw
  doLunch : Bool
  lunchDraw : MealDraw
  doDinner : Bool
  dinnerDraw : MealDraw
  numSnacksSeed : Nat
  snack1 : SnackDraw
  snack2 : SnackDraw

/-- An entry of `daily_logs`: `(meal_type, food_id, quantity, time)`. -/
structure DayLog where
  meal_type : String
  food_id : Nat
  quantity : Nat
  time : PyDateTime

/-- One non-snack meal block: select a food, draw a quantity, and stamp the
time `current_date.replace(hour=randint(hlo, hhi), minute=randint(0, 59))`. -/
def genMealLog (meal_type : String) (foods : List FoodRow) (season : String)
    (cd : PyDateTime) (hlo hhi : Nat) (d : MealDraw) : Option DayLog := do
  let f ← select_realistic_food_for_meal meal_type foods season d.seasonalRoll d.choiceSeed
  let q ← get_realistic_quantity_for_meal meal_type f.nutrition_data d.qtySeed
  pure ⟨meal_type, f.id, q,
    mkTime cd (pyRandInt hlo hhi d.hourSeed) (pyRandInt 0 59 d.minuteSeed)⟩

/-- One snack block: as a meal block, but the hour is
`random.choice([10, 15, 20])`. -/
def genSnackLog (foods : List FoodRow) (season : String) (cd : PyDateTime)
    (d : MealDraw) : Option DayLog := do
  let f ← select_realistic_food_for_meal "snack" foods season d.seasonalRoll d.choiceSeed
  let q ← get_realistic_quantity_for_meal "snack" f.nutrition_data d.qtySeed
  let snack_hour ← pyChoice [10, 15, 20] d.hourSeed
  pure ⟨"snack", f.id, q, mkTime cd snack_hour (pyRandInt 0 59 d.minuteSeed)⟩

/-- One snack iteration of the `for i in range(num_snacks)` loop: on the
snack-probability roll, append one snack log to the day's list. -/
def snackStep (foods : List FoodRow) (season : String) (cd : PyDateTime)
    (acc : List DayLog) (sd : SnackDraw) : Option (List DayLog) :=
  if sd.doSnack then do
    let l ← genSnackLog foods season cd sd.draw
    pure (acc ++ [l])
  else pure acc

/-- One conditional meal block (`if random.random() > p:` around the meal):
when the roll says so, produce the one-element log list, else nothing. -/
def mealBlock (todo : Bool) (mt : String) (foods : List FoodRow) (season : String)
    (cd : PyDateTime) (hlo hhi : Nat) (dr : MealDraw) : Option (List DayLog) :=
  if todo then do
    let l ← genMealLog mt foods season cd hlo hhi dr
    pure [l]
  else pure []

/-- One day of the generator: on an 85% roll, build the day's logs
(breakfast 95%, lunch 90%, dinner 98%, then up to two snack iterations whose
count is `random.choices([0, 1, 2], ...)`).  `is_weekend` only selects the
snack probability threshold; the outcome of each
`random.random() < snack_probability` comparison is the `doSnack` oracle. -/
def genDay (cd : PyDateTime) (foods : List FoodRow) (monthOf : Int → Nat)
    (d : DayDraw) : Option (List DayLog) :=
  if d.logRoll then do
    let season := get_season (monthOf cd.day)
    let breakfastLogs ← mealBlock d.doBreakfast "breakfast" foods season cd 6 9
      d.breakfastDraw
    let lunchLogs ← mealBlock d.doLunch "lunch" foods season cd 11 14 d.lunchDraw
    let dinnerLogs ← mealBlock d.doDinner "dinner" foods season cd 17 21 d.dinnerDraw
    let num_snacks := d.numSnacksSeed % 3
    let snackLogs ← ([d.snack1, d.snack2].take num_snacks).foldlM
      (snackStep foods season cd) []
    pure (breakfastLogs ++ lunchLogs ++ dinnerLogs ++ snackLogs)
  else pure []

/-- A row inserted into `food_log`. -/
structure LogInsert where
  user_id : Nat
  food_id : Nat
  quantity : Nat
  meal_type : String
  logged_at : PyDateTime
  notes : String
deriving DecidableEq

/-- The statistics side computation of the insert loop: re-query the food's
`nutrition_data` and add `calories_per_100g * quantity / 100`; the bare
`except: pass` swallows every failure (falsy text, bad JSON, non-dict,
non-numeric value), contributing 0. -/
def statsCalories (foodTable : List (Nat × String × Option StoredText))
    (food_id : Nat) (quantity : Nat) : ℚ :=
  match foodTable.find? (fun r => r.1 == food_id) with
  | none => 0
  | some r =>
      match r.2.2 with
      | some (.parsed (.jobj fields)) =>
          match pyFloat ((fields.lookup "calories_per_100g").getD (.jnum 0)) with
          | some c => c * (quantity : ℚ) / 100
          | none => 0
      | _ => 0

/-- Loop state of `_create_demo_data_internal`: the pending (uncommitted)
inserts and the running statistics. -/
structure GenState where
  pending : List LogInsert
  logs_created : Nat
  total_calories : ℚ
  meal_counts : List (String × Nat)
  dates_with_logs : List Int

/-- Set insertion for `dates_with_logs.add` (only the cardinality is read). -/
def setAdd (s : List Int) (d : Int) : List Int := if d ∈ s then s else s ++ [d]

/-- The insert loop over one day's `daily_logs`: execute the INSERT, bump the
counters and the meal breakdown, and accumulate the statistics calories. -/
def insertDayLogs (user_id : Nat) (foodTable : List (Nat × String × Option StoredText))
    (fmtDate : Int → String) (cd : PyDateTime) (dayLogs : List DayLog)
    (st : GenState) : GenState :=
  dayLogs.foldl (fun st l =>
    { pending := st.pending ++ [⟨user_id, l.food_id, l.quantity, l.meal_type,
        l.time, fmtDate cd.day⟩],
      logs_created := st.logs_created + 1,
      total_calories := st.total_calories + statsCalories foodTable l.food_id l.quantity,
      meal_counts := bucketUpd st.meal_counts l.meal_type 0 (fun n => n + 1),
      dates_with_logs := st.dates_with_logs }) st

/-- The `while current_date <= end_date` loop, by fuel.  Both bounds carry
the same time of day (`start_date = end_date - timedelta(days=months*30)`),
so the guard fails for the first time after exactly `months * 30 + 1`
iterations and any fuel of at least `months * 30 + 2` runs the loop to the
guard failure. -/
def genLoop (user_id : Nat) (foods : List FoodRow)
    (foodTable : List (Nat × String × Option StoredText)) (monthOf : Int → Nat)
    (fmtDate : Int → String) (draws : Int → DayDraw) (endD : PyDateTime) :
    Nat → PyDateTime → GenState → Option GenState
  | 0, _, st => some st
  | fuel + 1, cd, st =>
      if dtLe cd endD then
        match genDay cd foods monthOf (draws cd.day) with
        | none => none
        | some dayLogs =>
            let st := insertDayLogs user_id foodTable fmtDate cd dayLogs st
            let st := if dayLogs.isEmpty then st
              else { st with dates_with_logs := setAdd st.dates_with_logs cd.day }
            genLoop user_id foods foodTable monthOf fmtDate draws endD fuel
              ⟨cd.day + 1, cd.sod⟩ st
      else some st

/-- Python `round` on a rational: half rounds to the even neighbour. -/
def pyRound (q : ℚ) : Int :=
  let f := ⌊q⌋
  let r := q - (f : ℚ)
  if r < 1 / 2 then f
  else if 1 / 2 < r then f + 1
  else if 2 ∣ f then f else f + 1

/-- The dictionary returned by `_create_demo_data_internal`.  Failure
branches of the source return dicts without the numeric keys; those fields
are 0 / empty here. -/
structure GenResult where
  success : Bool
  error : String
  message : String
  logs_created : Nat
  unique_dates : Nat
  avg_calories_per_day : Int
  meal_breakdown : List (String × Nat)

/-- The SQLite database as the generator sees it. -/
structure Database where
  tables : List String
  food : List (Nat × String × Option StoredText)
  userGoal : Option Int
  food_log : List LogInsert

/-- A failure dictionary (`success=False` with error and message). -/
def genFailure (err msg : String) : GenResult :=
  ⟨false, err, msg, 0, 0, 0, []⟩

/-- The catalog query `SELECT id, name, nutrition_data FROM food WHERE
nutrition_data IS NOT NULL`. -/
def availableFoodsOf (db : Database) : List FoodRow :=
  db.food.filterMap (fun r =>
    match r.2.2 with
    | none => none
    | some st => some (FoodRow.mk r.1 r.2.1 st))

/-- `_create_demo_data_internal` (services/simple_demo_generator.py).
`connOk n` tells whether connection attempt `n` succeeds; `monthOf` is the
calendar (month of a day number) and `fmtDate` the `strftime` notes
formatter; `draws` supplies the day-indexed random draws.  The returned
`Database` reflects the committed store: the single `conn.commit()` after
the loop appends every pending row, and the `conn.rollback()` of the except
branch discards them all. -/
def create_demo_data_internal (user_id : Nat) (db : Database)
    (connOk : Nat → Bool) (now : PyDateTime) (monthOf : Int → Nat)
    (fmtDate : Int → String) (draws : Int → DayDraw) (months : Nat) :
    GenResult × Database :=
  if !(connOk 0 || connOk 1 || connOk 2) then
    (genFailure "Database connection failed after 3 attempts"
      "Failed to create demo data - database unavailable", db)
  else if !(db.tables.contains "food") then
    (genFailure "Food table not found"
      "Failed to create demo data - food table missing", db)
  else
    let available_foods := availableFoodsOf db
    if available_foods.isEmpty then
      (genFailure "No foods with nutrition data available"
        "Failed to create demo data - no foods available", db)
    else
      let end_date := now
      let start_date : PyDateTime := ⟨now.day - months * 30, now.sod⟩
      match genLoop user_id available_foods db.food monthOf fmtDate draws
          end_date (months * 30 + 2) start_date ⟨[], 0, 0, [], []⟩ with
      | some st =>
          let unique_dates := st.dates_with_logs.length
          let avg_calories_per_day := if 0 < unique_dates
            then pyRound (st.total_calories / (unique_dates : ℚ)) else 0
          (⟨true, "", "Successfully created demo food logs",
            st.logs_created, unique_dates, avg_calories_per_day, st.meal_counts⟩,
           { db with food_log := db.food_log ++ st.pending })
      | none =>
          (genFailure "exception during demo data generation"
            "Failed to create demo data: exception", db)

/-! ### Helper lemmas -/

theorem pyRandInt_lb (a b s : Nat) : a ≤ pyRandInt a b s := Nat.le_add_right a _

theorem pyRandInt_ub (a b s : Nat) (h : a ≤ b) : pyRandInt a b s ≤ b := by
  have hlt : s % (b - a + 1) < b - a + 1 := Nat.mod_lt _ (Nat.succ_pos _)
  unfold pyRandInt
  omega

theorem MEAL_PATTERNS_quantities_sound (mt : String) (base : Nat × Nat)
    (h : MEAL_PATTERNS_quantities mt = some base) : 0 < base.1 ∧ base.1 ≤ base.2 := by
  unfold MEAL_PATTERNS_quantities at h
  split at h <;> cases h <;> decide

/-! ### Claim theorems -/

/-- The calories-per-100g figure exactly as the specification words it: the
value under `calories_per_100g` of the food's nutrient mapping, defaulting
to 0 when the key is absent, the value is `None`, or the value is
non-numeric. -/
def specCaloriesPer100g (fields : List (String × JVal)) : ℚ :=
  match fields.lookup "calories_per_100g" with
  | none => 0
  | some v => if v.isNull then 0 else (pyFloat v).getD 0

/-- C1: for every FoodLog whose food's stored nutrition parses to a mapping,
the derived calories equal `calories_per_100g * quantity / 100`, with
`calories_per_100g` defaulting to 0 when the key is absent, the value is
`None`, or the value is non-numeric. -/
theorem foodlog_calories_formula (log : FoodLog) (fields : List (String × JVal))
    (h : log.food.get_nutrition_data = some (.jobj fields)) :
    log.get_calories = some (specCaloriesPer100g fields * log.quantity / 100) := by
  unfold FoodLog.get_calories specCaloriesPer100g
  rw [h]
  cases hl : fields.lookup "calories_per_100g" with
  | none => simp [pyDictGet, hl, JVal.isNull, pyFloat]
  | some v => simp [pyDictGet, hl]

/-- Witness for C1 at a concrete log (250 kcal per 100 g, 200 g). -/
theorem foodlog_calories_formula_witness :
    (FoodLog.mk 1 ⟨.parsed (.jobj [("calories_per_100g", .jnum 250)])⟩ 200 "lunch"
      ⟨0, 0⟩).get_calories
      = some (specCaloriesPer100g [("calories_per_100g", .jnum 250)] * 200 / 100) :=
  foodlog_calories_formula _ _ rfl

/-- Counterexample to C5: a food whose stored `nutrition_data` is text that
`json.loads` rejects makes `get_calories` raise (there is no handler around
the parse), so the computation does not proceed with a zero default. -/
theorem get_calories_raises_on_malformed :
    (FoodLog.mk 1 ⟨.invalid⟩ 100 "lunch" ⟨0, 0⟩).get_calories = none := rfl

/-- C5 (amended): whenever the stored nutrition parses to a mapping (in
particular when it is NULL or empty, which yields the empty mapping),
`get_calories` and `get_nutrients` never raise, whatever the values are:
missing keys, `None` and non-numeric values are defaulted to 0 or skipped.
Malformed stored text (the counterexample) is the one case that raises. -/
theorem foodlog_derivations_total_on_mapping (log : FoodLog)
    (fields : List (String × JVal))
    (h : log.food.get_nutrition_data = some (.jobj fields)) :
    log.get_calories.isSome ∧ log.get_nutrients.isSome := by
  constructor
  · unfold FoodLog.get_calories
    rw [h]
    simp [pyDictGet]
  · unfold FoodLog.get_nutrients
    rw [h]
    rfl

/-- Witness for C5 at a mapping holding a `None`, a non-numeric string and a
number. -/
theorem foodlog_derivations_total_witness :
    (FoodLog.mk 1 ⟨.parsed (.jobj [("calories_per_100g", .jnull),
        ("protein_per_100g", .jstr "oops"), ("fat_per_100g", .jnum 3)])⟩ 50 "snack"
      ⟨0, 0⟩).get_calories.isSome
    ∧ (FoodLog.mk 1 ⟨.parsed (.jobj [("calories_per_100g", .jnull),
        ("protein_per_100g", .jstr "oops"), ("fat_per_100g", .jnum 3)])⟩ 50 "snack"
      ⟨0, 0⟩).get_nutrients.isSome :=
  foodlog_derivations_total_on_mapping _ _ rfl

/-- C7: the synthesizer quantity heuristic.  With the meal's configured
default range `base`, a stored `calories_per_100g` above 500 draws from
[15, 50]; one in (300, 500] draws from [50, 120]; one at most 300 draws from
the default range; and on a JSON parse failure or a missing key the
classification runs on the default value 200, landing in the default range. -/
theorem synth_quantity_heuristic (meal_type : String) (base : Nat × Nat)
    (hm : MEAL_PATTERNS_quantities meal_type = some base)
    (s : Nat) (fields : List (String × JVal)) (c : ℚ)
    (hc : fields.lookup "calories_per_100g" = some (.jnum c))
    (fs2 : List (String × JVal)) (h2 : fs2.lookup "calories_per_100g" = none) :
    (500 < c →
      get_realistic_quantity_for_meal meal_type (.parsed (.jobj fields)) s
          = some (pyRandInt 15 50 s)
        ∧ 15 ≤ pyRandInt 15 50 s ∧ pyRandInt 15 50 s ≤ 50)
    ∧ (300 < c ∧ c ≤ 500 →
      get_realistic_quantity_for_meal meal_type (.parsed (.jobj fields)) s
          = some (pyRandInt 50 120 s)
        ∧ 50 ≤ pyRandInt 50 120 s ∧ pyRandInt 50 120 s ≤ 120)
    ∧ (c ≤ 300 →
      get_realistic_quantity_for_meal meal_type (.parsed (.jobj fields)) s
          = some (pyRandInt base.1 base.2 s)
        ∧ base.1 ≤ pyRandInt base.1 base.2 s ∧ pyRandInt base.1 base.2 s ≤ base.2)
    ∧ get_realistic_quantity_for_meal meal_type .invalid s
        = some (pyRandInt base.1 base.2 s)
    ∧ get_realistic_quantity_for_meal meal_type (.parsed (.jobj fs2)) s
        = some (pyRandInt base.1 base.2 s) := by
  obtain ⟨hb1, hb2⟩ := MEAL_PATTERNS_quantities_sound meal_type base hm
  have key : get_realistic_quantity_for_meal meal_type (.parsed (.jobj fields)) s
      = some (if 500 < c then pyRandInt 15 50 s
          else if 300 < c then pyRandInt 50 120 s
          else pyRandInt base.1 base.2 s) := by
    simp [get_realistic_quantity_for_meal, hm, hc, JVal.isNull, pyFloat]
  refine ⟨fun h => ?_, fun h => ?_, fun h => ?_, ?_, ?_⟩
  · rw [key, if_pos h]
    exact ⟨rfl, pyRandInt_lb 15 50 s, pyRandInt_ub 15 50 s (by norm_num)⟩
  · rw [key, if_neg (by linarith [h.2]), if_pos h.1]
    exact ⟨rfl, pyRandInt_lb 50 120 s, pyRandInt_ub 50 120 s (by norm_num)⟩
  · rw [key, if_neg (by linarith), if_neg (by linarith)]
    exact ⟨rfl, pyRandInt_lb base.1 base.2 s, pyRandInt_ub base.1 base.2 s hb2⟩
  · simp [get_realistic_quantity_for_meal, hm]
    norm_num
  · simp [get_realistic_quantity_for_meal, hm, h2, JVal.isNull, pyFloat]
    norm_num

/-- Witness for C7 at the breakfast range (80, 150), seed 7, a 600-kcal food,
and a mapping missing the calories key. -/
theorem synth_quantity_heuristic_witness :
    ((500 : ℚ) < 600 →
      get_realistic_quantity_for_meal "breakfast"
          (.parsed (.jobj [("calories_per_100g", .jnum 600)])) 7
          = some (pyRandInt 15 50 7)
        ∧ 15 ≤ pyRandInt 15 50 7 ∧ pyRandInt 15 50 7 ≤ 50)
    ∧ ((300 : ℚ) < 600 ∧ (600 : ℚ) ≤ 500 →
      get_realistic_quantity_for_meal "breakfast"
          (.parsed (.jobj [("calories_per_100g", .jnum 600)])) 7
          = some (pyRandInt 50 120 7)
        ∧ 50 ≤ pyRandInt 50 120 7 ∧ pyRandInt 50 120 7 ≤ 120)
    ∧ ((600 : ℚ) ≤ 300 →
      get_realistic_quantity_for_meal "breakfast"
          (.parsed (.jobj [("calories_per_100g", .jnum 600)])) 7
          = some (pyRandInt (80, 150).1 (80, 150).2 7)
        ∧ (80, 150).1 ≤ pyRandInt (80, 150).1 (80, 150).2 7
        ∧ pyRandInt (80, 150).1 (80, 150).2 7 ≤ (80, 150).2)
    ∧ get_realistic_quantity_for_meal "breakfast" .invalid 7
        = some (pyRandInt (80, 150).1 (80, 150).2 7)
    ∧ get_realistic_quantity_for_meal "breakfast"
        (.parsed (.jobj [("protein_per_100g", .jnum 1)])) 7
        = some (pyRandInt (80, 150).1 (80, 150).2 7) :=
  synth_quantity_heuristic "breakfast" (80, 150) rfl 7
    [("calories_per_100g", .jnum 600)] 600 rfl [("protein_per_100g", .jnum 1)] rfl

/-- C4 (code bug witness): a food storing `protein_per_100g = 10` eaten at
quantity 100 g.  `get_nutrients` correctly scales the value to 10, but the
per-day bucket of `dashboard.nutrition` keeps `protein = 0` (and every other
nutrient 0): the loop compares the stored key `protein_per_100g` against the
bucket key `protein`, so with the key schema the app itself stores
(`nutrition_api.py`), no nutrient is ever accumulated. -/
theorem dashboard_nutrition_drops_suffixed_nutrients :
    (FoodLog.mk 1 ⟨.parsed (.jobj [("protein_per_100g", .jnum 10)])⟩ 100 "lunch"
      ⟨100, 43200⟩).get_nutrients = some [("protein_per_100g", 10)]
    ∧ dashboard_nutrition 1
        [FoodLog.mk 1 ⟨.parsed (.jobj [("protein_per_100g", .jnum 10)])⟩ 100 "lunch"
          ⟨100, 43200⟩] 7 100
      = some [(100, [("calories", 0), ("protein", 0), ("carbs", 0), ("fat", 0),
          ("fiber", 0), ("sugar", 0), ("sodium", 0)])] := by
  constructor
  · norm_num [FoodLog.get_nutrients, Food.get_nutrition_data, JVal.isNull, pyFloat,
      List.filterMap_cons]
  · simp +decide [dashboard_nutrition, logsInRange, dateOf, dashDaily, FoodLog.get_calories,
      FoodLog.get_nutrients, Food.get_nutrition_data, pyDictGet, JVal.isNull, pyFloat,
      bucketUpd, nutInitBucket, nutLogUpd, addIfPresent, List.filterMap_cons]

/-- Counterexample to C2: a 30-day analytics window with entries on exactly
one day.  The dashboard analytics average equals that single day's total
(3100), not the total divided by the number of days in the requested range
(31 days inclusive, or 30): the code divides by the number of days that have
entries. -/
theorem analytics_avg_counterexample :
    (analytics 1 2000
        [FoodLog.mk 1 ⟨.parsed (.jobj [("calories_per_100g", .jnum 3100)])⟩ 100
          "dinner" ⟨1000, 7200⟩] 1000).map AnalyticsResult.avg_daily_calories
      = some 3100
    ∧ (3100 : ℚ) ≠ 3100 / 31 ∧ (3100 : ℚ) ≠ 3100 / 30 := by
  refine ⟨?_, by norm_num, by norm_num⟩
  simp +decide [analytics, analyticsFold, FoodLog.get_calories, Food.get_nutrition_data,
    pyDictGet, JVal.isNull, pyFloat, bucketUpd, dateOf]

/-- C2 (amended): the API summary's average is the range total divided by the
requested number of days (0 when that number is not positive), while the
dashboard analytics average is the total divided by the number of days that
have entries (0 when there are none). -/
theorem avg_daily_division (userId : Nat) (goal : Int) (logs : List FoodLog)
    (days today today2 : Int) (s : ApiSummary) (a : AnalyticsResult)
    (hs : nutrition_summary userId goal logs days today = some s)
    (ha : analytics userId goal logs today2 = some a) :
    s.avg_daily_calories = (if 0 < days then s.total_calories / (days : ℚ) else 0)
    ∧ s.period_days = days
    ∧ a.avg_daily_calories = (if 0 < a.total_days
        then (a.daily_calories.map Prod.snd).sum / (a.total_days : ℚ) else 0)
    ∧ a.total_days = a.daily_calories.length := by
  simp only [nutrition_summary, Option.pure_def, Option.bind_eq_bind, Option.bind_eq_some,
    Option.some.injEq] at hs
  obtain ⟨t, ht, dl, hdl, hrec⟩ := hs
  simp only [analytics, Option.pure_def, Option.bind_eq_bind, Option.bind_eq_some,
    Option.some.injEq] at ha
  obtain ⟨⟨mp, dc⟩, hfold, harec⟩ := ha
  subst hrec harec
  simp

/-- Witness for C2 at an empty log table, 7 requested days. -/
theorem avg_daily_division_witness :
    (ApiSummary.mk 0 0 0 [] 2000 7).avg_daily_calories
        = (if (0 : Int) < 7 then (ApiSummary.mk 0 0 0 [] 2000 7).total_calories
            / (((7 : Int)) : ℚ) else 0)
    ∧ (ApiSummary.mk 0 0 0 [] 2000 7).period_days = 7
    ∧ (AnalyticsResult.mk [] [] 0 0 [] [] []).avg_daily_calories
        = (if 0 < (AnalyticsResult.mk [] [] 0 0 [] [] []).total_days
            then ((AnalyticsResult.mk [] [] 0 0 [] [] []).daily_calories.map Prod.snd).sum
              / (((AnalyticsResult.mk [] [] 0 0 [] [] []).total_days : Nat) : ℚ) else 0)
    ∧ (AnalyticsResult.mk [] [] 0 0 [] [] []).total_days
        = (AnalyticsResult.mk [] [] 0 0 [] [] []).daily_calories.length :=
  avg_daily_division 1 2000 [] 7 1000 1000 (ApiSummary.mk 0 0 0 [] 2000 7)
    (AnalyticsResult.mk [] [] 0 0 [] [] [])
    (by norm_num [nutrition_summary, logsInRange, sumCaloriesM, apiDaily])
    (by norm_num [analytics, analyticsFold])

theorem lookup_cons_isSome {κ β : Type} [DecidableEq κ] (d k : κ) (b : β)
    (tl : List (κ × β)) :
    (List.lookup d ((k, b) :: tl)).isSome ↔ d = k ∨ (List.lookup d tl).isSome := by
  by_cases h : d = k
  · subst h; simp [List.lookup]
  · have hbeq : (d == k) = false := by simp [h]
    simp [List.lookup, hbeq, h]

theorem bucketUpd_lookup_isSome {κ β : Type} [DecidableEq κ] (m : List (κ × β))
    (k d : κ) (init : β) (f : β → β) :
    ((bucketUpd m k init f).lookup d).isSome ↔ (m.lookup d).isSome ∨ d = k := by
  induction m with
  | nil =>
      rw [show bucketUpd ([] : List (κ × β)) k init f = [(k, f init)] from rfl,
        lookup_cons_isSome]
      simp [List.lookup]
  | cons hd tl ih =>
      obtain ⟨k0, b⟩ := hd
      unfold bucketUpd
      by_cases hk : k0 = k
      · subst hk
        rw [if_pos rfl, lookup_cons_isSome, lookup_cons_isSome]
        tauto
      · rw [if_neg hk, lookup_cons_isSome, lookup_cons_isSome, ih]
        tauto

/-- Calories column of a per-day map (the quantity summed in C8). -/
def apiCalSum (m : List (Int × ApiDayBucket)) : ℚ :=
  (m.map (fun kv => kv.2.calories)).sum

theorem apiLogUpd_calories (c : ℚ) (ns : List (String × ℚ)) (b : ApiDayBucket) :
    (apiLogUpd c ns b).calories = b.calories + c := by
  unfold apiLogUpd
  split_ifs <;> rfl

theorem bucketUpd_calSum (m : List (Int × ApiDayBucket)) (k : Int) (c : ℚ)
    (ns : List (String × ℚ)) :
    apiCalSum (bucketUpd m k apiEmptyBucket (apiLogUpd c ns)) = apiCalSum m + c := by
  induction m with
  | nil => simp [bucketUpd, apiCalSum, apiLogUpd_calories, apiEmptyBucket]
  | cons hd tl ih =>
      obtain ⟨k0, b⟩ := hd
      unfold bucketUpd
      by_cases hk : k0 = k
      · subst hk
        simp [apiCalSum, apiLogUpd_calories]
        ring
      · simp only [if_neg hk]
        simp only [apiCalSum, List.map_cons, List.sum_cons] at ih ⊢
        rw [ih]
        ring

theorem apiDaily_lookup_isSome (logs : List FoodLog)
    (acc out : List (Int × ApiDayBucket)) (h : apiDaily logs acc = some out) (d : Int) :
    ((out.lookup d).isSome)
      ↔ ((acc.lookup d).isSome ∨ ∃ log, log ∈ logs ∧ dateOf log.logged_at = d) := by
  induction logs generalizing acc with
  | nil =>
      simp only [apiDaily, Option.some.injEq] at h
      subst h
      simp
  | cons log rest ih =>
      simp only [apiDaily, Option.pure_def, Option.bind_eq_bind, Option.bind_eq_some] at h
      obtain ⟨c, hc, ns, hns, hrest⟩ := h
      rw [ih _ hrest, bucketUpd_lookup_isSome]
      simp only [List.mem_cons]
      constructor
      · rintro (⟨ha | hd⟩ | ⟨l, hl, hdl⟩)
        · exact Or.inl ha
        · exact Or.inr ⟨log, Or.inl rfl, hd.symm⟩
        · exact Or.inr ⟨l, Or.inr hl, hdl⟩
      · rintro (ha | ⟨l, (rfl | hl), hdl⟩)
        · exact Or.inl (Or.inl ha)
        · exact Or.inl (Or.inr hdl.symm)
        · exact Or.inr ⟨l, hl, hdl⟩

theorem apiDaily_calSum (logs : List FoodLog) (acc out : List (Int × ApiDayBucket))
    (h : apiDaily logs acc = some out) :
    ∃ t, sumCaloriesM logs = some t ∧ apiCalSum out = apiCalSum acc + t := by
  induction logs generalizing acc with
  | nil =>
      simp only [apiDaily, Option.some.injEq] at h
      subst h
      exact ⟨0, rfl, by simp⟩
  | cons log rest ih =>
      simp only [apiDaily, Option.pure_def, Option.bind_eq_bind, Option.bind_eq_some] at h
      obtain ⟨c, hc, ns, hns, hrest⟩ := h
      obtain ⟨t, ht, hsum⟩ := ih _ hrest
      refine ⟨c + t, ?_, ?_⟩
      · simp [sumCaloriesM, hc, ht]
      · rw [hsum, bucketUpd_calSum]
        ring

theorem dashDaily_lookup_isSome (logs : List FoodLog)
    (acc out : List (Int × List (String × ℚ))) (h : dashDaily logs acc = some out) (d : Int) :
    ((out.lookup d).isSome)
      ↔ ((acc.lookup d).isSome ∨ ∃ log, log ∈ logs ∧ dateOf log.logged_at = d) := by
  induction logs generalizing acc with
  | nil =>
      simp only [dashDaily, Option.some.injEq] at h
      subst h
      simp
  | cons log rest ih =>
      simp only [dashDaily, Option.pure_def, Option.bind_eq_bind, Option.bind_eq_some] at h
      obtain ⟨c, hc, ns, hns, hrest⟩ := h
      rw [ih _ hrest, bucketUpd_lookup_isSome]
      simp only [List.mem_cons]
      constructor
      · rintro (⟨ha | hd⟩ | ⟨l, hl, hdl⟩)
        · exact Or.inl ha
        · exact Or.inr ⟨log, Or.inl rfl, hd.symm⟩
        · exact Or.inr ⟨l, Or.inr hl, hdl⟩
      · rintro (ha | ⟨l, (rfl | hl), hdl⟩)
        · exact Or.inl (Or.inl ha)
        · exact Or.inl (Or.inr hdl.symm)
        · exact Or.inr ⟨l, hl, hdl⟩

/-- C8: in both summary views, the per-day map has an entry for a date
exactly when some filtered log falls on that date (a date without entries is
absent, not present with zero), and the per-day calories of the API summary
sum to exactly the reported range total. -/
theorem summary_daily_partition (userId : Nat) (goal : Int) (logs : List FoodLog)
    (days today d : Int) (s : ApiSummary) (m : List (Int × List (String × ℚ)))
    (hs : nutrition_summary userId goal logs days today = some s)
    (hm : dashboard_nutrition userId logs days today = some m) :
    (((s.daily_data.lookup d).isSome) ↔ ∃ log, log ∈ logsInRange userId logs
        (today - (days - 1)) today ∧ dateOf log.logged_at = d)
    ∧ apiCalSum s.daily_data = s.total_calories
    ∧ (((m.lookup d).isSome) ↔ ∃ log, log ∈ logsInRange userId logs
        (today - (days - 1)) today ∧ dateOf log.logged_at = d) := by
  simp only [nutrition_summary, Option.pure_def, Option.bind_eq_bind, Option.bind_eq_some,
    Option.some.injEq] at hs
  obtain ⟨t, ht, dl, hdl, hrec⟩ := hs
  simp only [dashboard_nutrition, Option.pure_def, Option.bind_eq_bind] at hm
  subst hrec
  refine ⟨?_, ?_, ?_⟩
  · rw [apiDaily_lookup_isSome _ _ _ hdl d]
    simp
  · obtain ⟨t2, ht2, hsum⟩ := apiDaily_calSum _ _ _ hdl
    rw [ht] at ht2
    cases ht2
    simpa [apiCalSum] using hsum
  · rw [dashDaily_lookup_isSome _ _ _ hm d]
    simp

/-- Witness for C8: one log (200 kcal per 100 g, 50 g) on day 1000 in a
7-day window ending that day. -/
theorem summary_daily_partition_witness :
    ((((ApiSummary.mk 100 1 (100 / 7) [(1000, ApiDayBucket.mk 100 0 0 0 1)] 2000
          7).daily_data.lookup (1000 : Int)).isSome)
      ↔ ∃ log, log ∈ logsInRange 1
          [FoodLog.mk 1 ⟨.parsed (.jobj [("calories_per_100g", .jnum 200)])⟩ 50
            "lunch" ⟨1000, 7200⟩] (1000 - (7 - 1)) 1000 ∧ dateOf log.logged_at = 1000)
    ∧ apiCalSum (ApiSummary.mk 100 1 (100 / 7) [(1000, ApiDayBucket.mk 100 0 0 0 1)]
        2000 7).daily_data
      = (ApiSummary.mk 100 1 (100 / 7) [(1000, ApiDayBucket.mk 100 0 0 0 1)]
        2000 7).total_calories
    ∧ ((((([(1000, [("calories", (100 : ℚ)), ("protein", 0), ("carbs", 0), ("fat", 0),
          ("fiber", 0), ("sugar", 0), ("sodium", 0)])] : List (Int × List (String × ℚ))).lookup
            (1000 : Int)).isSome))
      ↔ ∃ log, log ∈ logsInRange 1
          [FoodLog.mk 1 ⟨.parsed (.jobj [("calories_per_100g", .jnum 200)])⟩ 50
            "lunch" ⟨1000, 7200⟩] (1000 - (7 - 1)) 1000 ∧ dateOf log.logged_at = 1000) :=
  summary_daily_partition 1 2000
    [FoodLog.mk 1 ⟨.parsed (.jobj [("calories_per_100g", .jnum 200)])⟩ 50 "lunch"
      ⟨1000, 7200⟩] 7 1000 1000
    (ApiSummary.mk 100 1 (100 / 7) [(1000, ApiDayBucket.mk 100 0 0 0 1)] 2000 7)
    [(1000, [("calories", 100), ("protein", 0), ("carbs", 0), ("fat", 0),
      ("fiber", 0), ("sugar", 0), ("sodium", 0)])]
    (by
      simp +decide [nutrition_summary, logsInRange, dateOf, sumCaloriesM, apiDaily,
        FoodLog.get_calories, FoodLog.get_nutrients, Food.get_nutrition_data, pyDictGet,
        JVal.isNull, pyFloat, bucketUpd, apiLogUpd, apiEmptyBucket, List.filterMap_cons]
      norm_num)
    (by
      simp +decide [dashboard_nutrition, logsInRange, dateOf, dashDaily,
        FoodLog.get_calories, FoodLog.get_nutrients, Food.get_nutrition_data, pyDictGet,
        JVal.isNull, pyFloat, bucketUpd, nutInitBucket, nutLogUpd, addIfPresent,
        List.filterMap_cons]
      norm_num)


theorem get_realistic_quantity_pos (mt : String) (nj : StoredText) (s q : Nat)
    (h : get_realistic_quantity_for_meal mt nj s = some q) : 0 < q := by
  unfold get_realistic_quantity_for_meal at h
  cases hb : MEAL_PATTERNS_quantities mt with
  | none => rw [hb] at h; simp at h
  | some base =>
      obtain ⟨hb1, _⟩ := MEAL_PATTERNS_quantities_sound mt base hb
      rw [hb] at h
      have key : ∀ c : ℚ, some (if 500 < c then pyRandInt 15 50 s
          else if 300 < c then pyRandInt 50 120 s
          else pyRandInt base.1 base.2 s) = some q → 0 < q := by
        intro c hq
        rw [Option.some.injEq] at hq
        subst hq
        split_ifs
        · exact lt_of_lt_of_le (by norm_num) (pyRandInt_lb 15 50 s)
        · exact lt_of_lt_of_le (by norm_num) (pyRandInt_lb 50 120 s)
        · exact lt_of_lt_of_le hb1 (pyRandInt_lb base.1 base.2 s)
      rcases nj with _ | _ | j
      · exact key 200 (by simpa using h)
      · exact key 200 (by simpa using h)
      · rcases j with _ | b | qn | st | fields
        · simp at h
        · simp at h
        · simp at h
        · simp at h
        · exact key _ (by simpa using h)

theorem genMealLog_props (mt : String) (foods : List FoodRow) (season : String)
    (cd : PyDateTime) (hlo hhi : Nat) (d : MealDraw) (l : DayLog)
    (h : genMealLog mt foods season cd hlo hhi d = some l) :
    l.meal_type = mt ∧ 0 < l.quantity ∧ l.time.day = cd.day := by
  unfold genMealLog at h
  simp only [Option.pure_def, Option.bind_eq_bind, Option.bind_eq_some,
    Option.some.injEq] at h
  obtain ⟨f, hf, q, hq, hl⟩ := h
  subst hl
  exact ⟨rfl, get_realistic_quantity_pos _ _ _ _ hq, rfl⟩

theorem genSnackLog_props (foods : List FoodRow) (season : String)
    (cd : PyDateTime) (d : MealDraw) (l : DayLog)
    (h : genSnackLog foods season cd d = some l) :
    l.meal_type = "snack" ∧ 0 < l.quantity ∧ l.time.day = cd.day := by
  unfold genSnackLog at h
  simp only [Option.pure_def, Option.bind_eq_bind, Option.bind_eq_some,
    Option.some.injEq] at h
  obtain ⟨f, hf, q, hq, hh, hhh, hl⟩ := h
  subst hl
  exact ⟨rfl, get_realistic_quantity_pos _ _ _ _ hq, rfl⟩

theorem mealBlock_props (todo : Bool) (mt : String) (foods : List FoodRow)
    (season : String) (cd : PyDateTime) (hlo hhi : Nat) (dr : MealDraw)
    (out : List DayLog) (h : mealBlock todo mt foods season cd hlo hhi dr = some out) :
    ∀ l ∈ out, l.meal_type = mt ∧ 0 < l.quantity ∧ l.time.day = cd.day := by
  unfold mealBlock at h
  split_ifs at h
  · simp only [Option.pure_def, Option.bind_eq_bind, Option.bind_eq_some,
      Option.some.injEq] at h
    obtain ⟨l0, hl0, hout⟩ := h
    subst hout
    intro l hl
    rw [List.mem_singleton] at hl
    subst hl
    exact genMealLog_props _ _ _ _ _ _ _ _ hl0
  · simp only [Option.pure_def, Option.some.injEq] at h
    subst h
    intro l hl
    simp at hl

theorem snackFold_props (foods : List FoodRow) (season : String) (cd : PyDateTime) :
    ∀ (sds : List SnackDraw) (acc out : List DayLog),
      sds.foldlM (snackStep foods season cd) acc = some out →
      ∀ l ∈ out, l ∈ acc
        ∨ (l.meal_type = "snack" ∧ 0 < l.quantity ∧ l.time.day = cd.day) := by
  intro sds
  induction sds with
  | nil =>
      intro acc out h l hl
      simp only [List.foldlM_nil, Option.pure_def, Option.some.injEq] at h
      subst h
      exact Or.inl hl
  | cons sd rest ih =>
      intro acc out h l hl
      simp only [List.foldlM_cons] at h
      unfold snackStep at h
      split_ifs at h
      · simp only [Option.pure_def, Option.bind_eq_bind, Option.bind_eq_some,
          Option.some.injEq] at h
        obtain ⟨acc2, ⟨l0, hl0, hacc2⟩, hrest⟩ := h
        subst hacc2
        rcases ih _ _ hrest l hl with hacc | hsnack
        · rcases List.mem_append.mp hacc with hacc2 | hone
          · exact Or.inl hacc2
          · rw [List.mem_singleton] at hone
            subst hone
            exact Or.inr (genSnackLog_props _ _ _ _ _ hl0)
        · exact Or.inr hsnack
      · simp only [Option.pure_def, Option.bind_eq_bind, Option.some_bind] at h
        exact ih _ _ h l hl

theorem genDay_props (cd : PyDateTime) (foods : List FoodRow) (monthOf : Int → Nat)
    (d : DayDraw) (ls : List DayLog) (h : genDay cd foods monthOf d = some ls) :
    ∀ l ∈ ls, l.meal_type ∈ (["breakfast", "lunch", "dinner", "snack"] : List String)
      ∧ 0 < l.quantity ∧ l.time.day = cd.day := by
  unfold genDay at h
  split_ifs at h
  · simp only [Option.pure_def, Option.bind_eq_bind, Option.bind_eq_some,
      Option.some.injEq] at h
    obtain ⟨bl, hbl, ll, hll, dl, hdl, sl, hsl, hls⟩ := h
    subst hls
    intro l hl
    simp only [List.mem_append] at hl
    rcases hl with ((hb | hlu) | hdi) | hs
    · have := mealBlock_props _ _ _ _ _ _ _ _ _ hbl l hb
      exact ⟨by simp [this.1], this.2.1, this.2.2⟩
    · have := mealBlock_props _ _ _ _ _ _ _ _ _ hll l hlu
      exact ⟨by simp [this.1], this.2.1, this.2.2⟩
    · have := mealBlock_props _ _ _ _ _ _ _ _ _ hdl l hdi
      exact ⟨by simp [this.1], this.2.1, this.2.2⟩
    · rcases snackFold_props _ _ _ _ _ _ hsl l hs with hemp | hsnack
      · simp at hemp
      · exact ⟨by simp [hsnack.1], hsnack.2.1, hsnack.2.2⟩
  · simp only [Option.pure_def, Option.some.injEq] at h
    subst h
    intro l hl
    simp at hl

/-- Total of a meal-breakdown dictionary. -/
def sumCounts (m : List (String × Nat)) : Nat := (m.map Prod.snd).sum

theorem bucketUpd_countSum (m : List (String × Nat)) (k : String) :
    sumCounts (bucketUpd m k 0 (fun n => n + 1)) = sumCounts m + 1 := by
  induction m with
  | nil => rfl
  | cons hd tl ih =>
      obtain ⟨k0, n⟩ := hd
      unfold bucketUpd
      by_cases hk : k0 = k
      · subst hk
        simp [sumCounts]
        omega
      · rw [if_neg hk]
        simp only [sumCounts, List.map_cons, List.sum_cons] at ih ⊢
        omega

/-- The row built from one day-log entry by the INSERT. -/
def toInsert (uid : Nat) (fmtDate : Int → String) (cd : PyDateTime) (l : DayLog) :
    LogInsert :=
  ⟨uid, l.food_id, l.quantity, l.meal_type, l.time, fmtDate cd.day⟩

theorem insertDayLogs_spec (uid : Nat) (tbl : List (Nat × String × Option StoredText))
    (fmtDate : Int → String) (cd : PyDateTime) :
    ∀ (dayLogs : List DayLog) (st : GenState),
      (insertDayLogs uid tbl fmtDate cd dayLogs st).pending
          = st.pending ++ dayLogs.map (toInsert uid fmtDate cd)
      ∧ (insertDayLogs uid tbl fmtDate cd dayLogs st).logs_created
          = st.logs_created + dayLogs.length
      ∧ sumCounts (insertDayLogs uid tbl fmtDate cd dayLogs st).meal_counts
          = sumCounts st.meal_counts + dayLogs.length
      ∧ (insertDayLogs uid tbl fmtDate cd dayLogs st).dates_with_logs
          = st.dates_with_logs := by
  intro dayLogs
  induction dayLogs with
  | nil => intro st; simp [insertDayLogs]
  | cons l rest ih =>
      intro st
      have step : insertDayLogs uid tbl fmtDate cd (l :: rest) st
          = insertDayLogs uid tbl fmtDate cd rest
            { pending := st.pending ++ [toInsert uid fmtDate cd l],
              logs_created := st.logs_created + 1,
              total_calories := st.total_calories + statsCalories tbl l.food_id l.quantity,
              meal_counts := bucketUpd st.meal_counts l.meal_type 0 (fun n => n + 1),
              dates_with_logs := st.dates_with_logs } := rfl
      obtain ⟨h1, h2, h3, h4⟩ := ih
        { pending := st.pending ++ [toInsert uid fmtDate cd l],
          logs_created := st.logs_created + 1,
          total_calories := st.total_calories + statsCalories tbl l.food_id l.quantity,
          meal_counts := bucketUpd st.meal_counts l.meal_type 0 (fun n => n + 1),
          dates_with_logs := st.dates_with_logs }
      rw [step]
      refine ⟨?_, ?_, ?_, ?_⟩
      · rw [h1]; simp
      · rw [h2]; simp; omega
      · rw [h3]
        have := bucketUpd_countSum st.meal_counts l.meal_type
        simp only [List.length_cons]
        omega
      · rw [h4]

theorem setAdd_length_le (s : List Int) (d : Int) :
    (setAdd s d).length ≤ s.length + 1 := by
  unfold setAdd
  split_ifs <;> simp

/-- Loop invariant of `genLoop`: a successful run extends the pending inserts
by a batch of new rows (counted by `logs_created` and the meal breakdown)
whose rows carry this user's id, a positive quantity, one of the four meal
strings, and a calendar day between the current day and the end day; the
date set grows by at most one per calendar day and at most one per new
row. -/
theorem genLoop_spec (uid : Nat) (foods : List FoodRow)
    (tbl : List (Nat × String × Option StoredText)) (monthOf : Int → Nat)
    (fmtDate : Int → String) (draws : Int → DayDraw) (endD : PyDateTime) :
    ∀ (fuel : Nat) (cd : PyDateTime) (st st' : GenState),
      genLoop uid foods tbl monthOf fmtDate draws endD fuel cd st = some st' →
      ∃ new, st'.pending = st.pending ++ new
        ∧ st'.logs_created = st.logs_created + new.length
        ∧ sumCounts st'.meal_counts = sumCounts st.meal_counts + new.length
        ∧ st'.dates_with_logs.length
            ≤ st.dates_with_logs.length + (endD.day - cd.day + 1).toNat
        ∧ st'.dates_with_logs.length ≤ st.dates_with_logs.length + new.length
        ∧ ∀ l ∈ new, l.user_id = uid ∧ 0 < l.quantity
            ∧ l.meal_type ∈ (["breakfast", "lunch", "dinner", "snack"] : List String)
            ∧ cd.day ≤ l.logged_at.day ∧ l.logged_at.day ≤ endD.day := by
  intro fuel
  induction fuel with
  | zero =>
      intro cd st st' h
      simp only [genLoop, Option.some.injEq] at h
      subst h
      exact ⟨[], by simp, by simp, by simp, by omega, by simp, by simp⟩
  | succ fuel ih =>
      intro cd st st' h
      unfold genLoop at h
      split_ifs at h with hguard
      · have hday : cd.day ≤ endD.day := by
          unfold dtLe at hguard
          simp only [Bool.or_eq_true, Bool.and_eq_true, decide_eq_true_eq,
            beq_iff_eq] at hguard
          omega
        cases hday2 : genDay cd foods monthOf (draws cd.day) with
        | none => rw [hday2] at h; exact absurd h (by simp)
        | some dayLogs =>
            rw [hday2] at h
            obtain ⟨p1, c1, m1, d1⟩ := insertDayLogs_spec uid tbl fmtDate cd dayLogs st
            cases dayLogs with
            | nil =>
                simp only [List.isEmpty_nil, if_pos] at h
                obtain ⟨new2, hp2, hc2, hm2, hd2, hdc2, hprops2⟩ := ih _ _ _ h
                simp only [List.map_nil, List.append_nil] at p1
                simp only [List.length_nil, Nat.add_zero] at c1 m1
                refine ⟨new2, ?_, ?_, ?_, ?_, ?_, ?_⟩
                · rw [hp2, p1]
                · rw [hc2, c1]
                · rw [hm2, m1]
                · rw [d1] at hd2
                  simp only at hd2 ⊢
                  omega
                · rw [d1] at hdc2
                  exact hdc2
                · intro l hl
                  have := hprops2 l hl
                  exact ⟨this.1, this.2.1, this.2.2.1, by
                    have := this.2.2.2.1; simp at this ⊢; omega, this.2.2.2.2⟩
            | cons l0 rest0 =>
                simp only [List.isEmpty_cons, Bool.false_eq_true, if_neg,
                  not_false_eq_true] at h
                obtain ⟨new2, hp2, hc2, hm2, hd2, hdc2, hprops2⟩ := ih _ _ _ h
                simp only at hp2 hc2 hm2 hd2 hdc2
                rw [d1] at hd2 hdc2
                have hsetlen := setAdd_length_le st.dates_with_logs cd.day
                refine ⟨(l0 :: rest0).map (toInsert uid fmtDate cd) ++ new2,
                  ?_, ?_, ?_, ?_, ?_, ?_⟩
                · rw [hp2, p1, List.append_assoc]
                · rw [hc2, c1]
                  simp only [List.length_append, List.length_map]
                  omega
                · rw [hm2, m1]
                  simp only [List.length_append, List.length_map]
                  omega
                · omega
                · simp only [List.length_append, List.length_map, List.length_cons]
                  omega
                · intro l hl
                  rcases List.mem_append.mp hl with hnew1 | hnew2
                  · obtain ⟨ld, hld, rfl⟩ := List.mem_map.mp hnew1
                    have := genDay_props _ _ _ _ _ hday2 ld hld
                    exact ⟨rfl, this.2.1, this.1, by
                      simp [toInsert, this.2.2], by simp [toInsert, this.2.2, hday]⟩
                  · have := hprops2 l hnew2
                    exact ⟨this.1, this.2.1, this.2.2.1, by
                      have := this.2.2.2.1; simp at this ⊢; omega, this.2.2.2.2⟩
      · simp only [Option.some.injEq] at h
        subst h
        exact ⟨[], by simp, by simp, by simp, by omega, by simp, by simp⟩

/-- Case analysis of one generator run: either a failure dictionary with a
nonempty message and an untouched database, or a success whose reported
figures come from the final loop state and whose single commit appended
exactly the pending rows. -/
theorem create_demo_data_internal_cases (uid : Nat) (db : Database)
    (connOk : Nat → Bool) (now : PyDateTime) (monthOf : Int → Nat)
    (fmtDate : Int → String) (draws : Int → DayDraw) (months : Nat)
    (res : GenResult) (db' : Database)
    (h : create_demo_data_internal uid db connOk now monthOf fmtDate draws months
      = (res, db')) :
    (res.success = false ∧ res.message ≠ "" ∧ db' = db)
    ∨ (res.success = true
        ∧ availableFoodsOf db ≠ []
        ∧ ∃ st, genLoop uid (availableFoodsOf db) db.food monthOf fmtDate draws now
            (months * 30 + 2) ⟨now.day - (months : Int) * 30, now.sod⟩
            ⟨[], 0, 0, [], []⟩ = some st
          ∧ res.logs_created = st.logs_created
          ∧ res.unique_dates = st.dates_with_logs.length
          ∧ res.meal_breakdown = st.meal_counts
          ∧ res.avg_calories_per_day = (if 0 < st.dates_with_logs.length
              then pyRound (st.total_calories / (st.dates_with_logs.length : ℚ)) else 0)
          ∧ db'.food_log = db.food_log ++ st.pending) := by
  unfold create_demo_data_internal at h
  dsimp only at h
  split_ifs at h with hc ht he
  · injection h with h1 h2
    subst h1 h2
    exact Or.inl ⟨rfl, by decide, rfl⟩
  · injection h with h1 h2
    subst h1 h2
    exact Or.inl ⟨rfl, by decide, rfl⟩
  · injection h with h1 h2
    subst h1 h2
    exact Or.inl ⟨rfl, by decide, rfl⟩
  · cases hloop : genLoop uid (availableFoodsOf db) db.food monthOf fmtDate draws now
        (months * 30 + 2) ⟨now.day - (months : Int) * 30, now.sod⟩
        ⟨[], 0, 0, [], []⟩ with
    | none =>
        rw [hloop] at h
        injection h with h1 h2
        subst h1 h2
        exact Or.inl ⟨rfl, by decide, rfl⟩
    | some st =>
        rw [hloop] at h
        injection h with h1 h2
        subst h1 h2
        refine Or.inr ⟨rfl, ?_, st, rfl, rfl, rfl, rfl, rfl, rfl⟩
        intro hnil
        rw [hnil] at he
        exact he rfl

/-- C6: every run of the synthesizer either succeeds, committing exactly the
generated batch in the single commit after the loop, or fails with a
structured record (success = false, nonempty human-readable message) and
leaves the committed store untouched; in particular three failed connection
attempts yield such a failure.  No partial write survives. -/
theorem synth_commit_or_rollback (uid : Nat) (db : Database) (connOk : Nat → Bool)
    (now : PyDateTime) (monthOf : Int → Nat) (fmtDate : Int → String)
    (draws : Int → DayDraw) (months : Nat) (res : GenResult) (db' : Database)
    (h : create_demo_data_internal uid db connOk now monthOf fmtDate draws months
      = (res, db')) :
    ((res.success = true ∧ ∃ batch, db'.food_log = db.food_log ++ batch
        ∧ res.logs_created = batch.length)
      ∨ (res.success = false ∧ res.message ≠ "" ∧ db'.food_log = db.food_log))
    ∧ ((connOk 0 = false ∧ connOk 1 = false ∧ connOk 2 = false) →
        res.success = false) := by
  constructor
  · rcases create_demo_data_internal_cases _ _ _ _ _ _ _ _ _ _ h with
      ⟨hf, hm, hdb⟩ | ⟨hs, _, st, hloop, hlc, _, _, _, hdb⟩
    · right; exact ⟨hf, hm, by rw [hdb]⟩
    · left
      refine ⟨hs, st.pending, hdb, ?_⟩
      obtain ⟨new, hp, hc, _, _, _, _⟩ :=
        genLoop_spec _ _ _ _ _ _ _ _ _ _ _ hloop
      simp only [List.nil_append, Nat.zero_add] at hp hc
      rw [hlc, hc, hp]
  · rintro ⟨h0, h1, h2⟩
    unfold create_demo_data_internal at h
    rw [h0, h1, h2] at h
    simp only [Bool.or_false, Bool.not_false, if_true, Prod.mk.injEq] at h
    rw [← h.1]
    rfl

/-- C9: when no catalog row has nutrition data, the run returns a failure
record (success = false) and inserts nothing. -/
theorem synth_no_foods_failure (uid : Nat) (db : Database) (connOk : Nat → Bool)
    (now : PyDateTime) (monthOf : Int → Nat) (fmtDate : Int → String)
    (draws : Int → DayDraw) (months : Nat) (res : GenResult) (db' : Database)
    (h : create_demo_data_internal uid db connOk now monthOf fmtDate draws months
      = (res, db'))
    (hfoods : ∀ r ∈ db.food, r.2.2 = (none : Option StoredText)) :
    res.success = false ∧ db'.food_log = db.food_log := by
  rcases create_demo_data_internal_cases _ _ _ _ _ _ _ _ _ _ h with
    ⟨hf, _, hdb⟩ | ⟨_, hne, _⟩
  · exact ⟨hf, by rw [hdb]⟩
  · exfalso
    apply hne
    unfold availableFoodsOf
    rw [List.filterMap_eq_nil_iff]
    intro r hr
    rw [hfoods r hr]

/-- C3 (amended): every FoodLog row inserted by a successful run has a
positive quantity, one of the four meal strings, and a calendar date within
the range's calendar days (the full timestamp may still fall outside
[start_date, end_date] on the boundary days, as the counterexample shows). -/
theorem synth_inserted_rows_invariant (uid : Nat) (db : Database)
    (connOk : Nat → Bool) (now : PyDateTime) (monthOf : Int → Nat)
    (fmtDate : Int → String) (draws : Int → DayDraw) (months : Nat)
    (res : GenResult) (db' : Database)
    (h : create_demo_data_internal uid db connOk now monthOf fmtDate draws months
      = (res, db'))
    (hsucc : res.success = true) (l : LogInsert)
    (hmem : l ∈ db'.food_log) (hold : l ∉ db.food_log) :
    0 < l.quantity
    ∧ l.meal_type ∈ (["breakfast", "lunch", "dinner", "snack"] : List String)
    ∧ now.day - (months : Int) * 30 ≤ dateOf l.logged_at
    ∧ dateOf l.logged_at ≤ now.day := by
  rcases create_demo_data_internal_cases _ _ _ _ _ _ _ _ _ _ h with
    ⟨hf, _, _⟩ | ⟨_, _, st, hloop, _, _, _, _, hdb⟩
  · rw [hf] at hsucc; cases hsucc
  · obtain ⟨new, hp, _, _, _, _, hprops⟩ :=
      genLoop_spec _ _ _ _ _ _ _ _ _ _ _ hloop
    simp only [List.nil_append] at hp
    rw [hdb] at hmem
    rcases List.mem_append.mp hmem with hx | hx
    · exact absurd hx hold
    · rw [hp] at hx
      have := hprops l hx
      exact ⟨this.2.1, this.2.2.1, this.2.2.2.1, this.2.2.2.2⟩

/-- C10 (amended): the success summary is self-consistent: logs_created is
the meal-breakdown total and the number of committed new rows; unique_dates
is at most logs_created and at most the number of calendar days in the
range; and the average is 0 whenever unique_dates is 0 (but, as the
counterexample shows, the average can also be 0 with days present). -/
theorem synth_summary_consistency (uid : Nat) (db : Database)
    (connOk : Nat → Bool) (now : PyDateTime) (monthOf : Int → Nat)
    (fmtDate : Int → String) (draws : Int → DayDraw) (months : Nat)
    (res : GenResult) (db' : Database)
    (h : create_demo_data_internal uid db connOk now monthOf fmtDate draws months
      = (res, db'))
    (hsucc : res.success = true) :
    res.logs_created = sumCounts res.meal_breakdown
    ∧ db'.food_log.length = db.food_log.length + res.logs_created
    ∧ res.unique_dates ≤ res.logs_created
    ∧ res.unique_dates ≤ months * 30 + 1
    ∧ (res.unique_dates = 0 → res.avg_calories_per_day = 0) := by
  rcases create_demo_data_internal_cases _ _ _ _ _ _ _ _ _ _ h with
    ⟨hf, _, _⟩ | ⟨_, _, st, hloop, hlc, hud, hmb, havg, hdb⟩
  · rw [hf] at hsucc; cases hsucc
  · obtain ⟨new, hp, hc, hm, hd, hdc, _⟩ :=
      genLoop_spec _ _ _ _ _ _ _ _ _ _ _ hloop
    dsimp only at hp hc hm hd hdc
    simp only [List.nil_append, Nat.zero_add, List.length_nil] at hp hc hm hd hdc
    refine ⟨?_, ?_, ?_, ?_, ?_⟩
    · rw [hlc, hmb, hc, hm]
      simp [sumCounts]
    · rw [hdb, hlc, hc, hp]
      simp
    · rw [hud, hlc, hc]
      exact hdc
    · rw [hud]
      omega
    · intro h0
      rw [hud] at h0
      rw [havg, if_neg]
      omega

/-- Fixture: a catalog with one zero-calorie food with nutrition data. -/
def demoRunDb : Database :=
  ⟨["user", "food", "food_log"],
   [(1, "Oatmeal", some (.parsed (.jobj [("calories_per_100g", .jnum 0)])))],
   some 2000, []⟩

/-- Fixture: a meal draw with every seed 0 and no seasonal roll. -/
def noDraw : MealDraw := ⟨false, 0, 0, 0, 0⟩

/-- Fixture: log one breakfast (all seeds 0) and nothing else, every day. -/
def oneBreakfastDraws : Int → DayDraw := fun _ =>
  ⟨true, true, noDraw, false, noDraw, false, noDraw, 0, ⟨false, noDraw⟩,
   ⟨false, noDraw⟩⟩

/-- Fixture: never log anything. -/
def noLogDraws : Int → DayDraw := fun _ =>
  ⟨false, false, noDraw, false, noDraw, false, noDraw, 0, ⟨false, noDraw⟩,
   ⟨false, noDraw⟩⟩

/-- Fixture: the wall clock reads 23:59:00 (second 86340 of day 20000). -/
def demoNow : PyDateTime := ⟨20000, 86340⟩

/-- A concrete 0-month run that inserts one breakfast row. -/
def demoRun : GenResult × Database :=
  create_demo_data_internal 1 demoRunDb (fun _ => true) demoNow (fun _ => 10)
    (fun _ => "d") oneBreakfastDraws 0

/-- The one-breakfast run, evaluated (the calorie fields are left symbolic). -/
theorem demoRun_eq : demoRun =
    (⟨true, "", "Successfully created demo food logs", 1, 1,
      pyRound ((0 + statsCalories demoRunDb.food 1 80) / ((1 : Nat) : ℚ)),
      [("breakfast", 1)]⟩,
     ⟨["user", "food", "food_log"], demoRunDb.food, some 2000,
      [⟨1, 1, 80, "breakfast", ⟨20000, 21600⟩, "d"⟩]⟩) := rfl

/-- Counterexample to C3: months = 0 with the clock at 23:59:00, so
start_date = end_date = day 20000 at second 86340.  The successful run
inserts a breakfast row stamped at 06:00:00 of the start day (second 21600),
which is strictly before start_date: the timestamp is not within
[start_date, end_date]. -/
theorem synth_timestamp_counterexample :
    demoRun.1.success = true
    ∧ demoRun.2.food_log.map LogInsert.logged_at = [⟨20000, 21600⟩]
    ∧ dtLe ⟨20000, 86340⟩ (⟨20000, 21600⟩ : PyDateTime) = false
    ∧ (⟨demoNow.day - (0 : Int) * 30, demoNow.sod⟩ : PyDateTime) = ⟨20000, 86340⟩ := by
  rw [demoRun_eq]
  exact ⟨rfl, rfl, rfl, rfl⟩

/-- Witness for C3 (amended) at the one-breakfast run's inserted row. -/
theorem synth_inserted_rows_invariant_witness :
    0 < (LogInsert.mk 1 1 80 "breakfast" ⟨20000, 21600⟩ "d").quantity
    ∧ (LogInsert.mk 1 1 80 "breakfast" ⟨20000, 21600⟩ "d").meal_type
        ∈ (["breakfast", "lunch", "dinner", "snack"] : List String)
    ∧ demoNow.day - ((0 : Nat) : Int) * 30
        ≤ dateOf (LogInsert.mk 1 1 80 "breakfast" ⟨20000, 21600⟩ "d").logged_at
    ∧ dateOf (LogInsert.mk 1 1 80 "breakfast" ⟨20000, 21600⟩ "d").logged_at
        ≤ demoNow.day :=
  synth_inserted_rows_invariant 1 demoRunDb (fun _ => true) demoNow (fun _ => 10)
    (fun _ => "d") oneBreakfastDraws 0 demoRun.1 demoRun.2 rfl rfl
    (LogInsert.mk 1 1 80 "breakfast" ⟨20000, 21600⟩ "d")
    (by
      rw [show demoRun.2.food_log
        = [LogInsert.mk 1 1 80 "breakfast" ⟨20000, 21600⟩ "d"] from rfl]
      exact List.mem_singleton.mpr rfl)
    (by simp [demoRunDb])

/-- Counterexample to C10: the one-breakfast run succeeds with
unique_dates = 1, yet avg_calories_per_day is 0 (the only food has 0
calories per 100 g), so the average being 0 does not imply that
unique_dates is 0. -/
theorem synth_avg_zero_counterexample :
    demoRun.1.success = true ∧ demoRun.1.unique_dates = 1
    ∧ demoRun.1.avg_calories_per_day = 0 := by
  rw [demoRun_eq]
  refine ⟨rfl, rfl, ?_⟩
  have hstats : statsCalories demoRunDb.food 1 80 = 0 * ((80 : Nat) : ℚ) / 100 := rfl
  show pyRound ((0 + statsCalories demoRunDb.food 1 80) / ((1 : Nat) : ℚ)) = 0
  rw [hstats]
  norm_num [pyRound]

/-- A concrete 0-month run in which no day logs anything. -/
def quietRun : GenResult × Database :=
  create_demo_data_internal 1 demoRunDb (fun _ => true) demoNow (fun _ => 10)
    (fun _ => "d") noLogDraws 0

/-- Witness for C6 at the no-log run. -/
theorem synth_commit_or_rollback_witness :
    ((quietRun.1.success = true ∧ ∃ batch,
        quietRun.2.food_log = demoRunDb.food_log ++ batch
        ∧ quietRun.1.logs_created = batch.length)
      ∨ (quietRun.1.success = false ∧ quietRun.1.message ≠ ""
          ∧ quietRun.2.food_log = demoRunDb.food_log))
    ∧ (((fun _ : Nat => true) 0 = false ∧ (fun _ : Nat => true) 1 = false
        ∧ (fun _ : Nat => true) 2 = false) → quietRun.1.success = false) :=
  synth_commit_or_rollback 1 demoRunDb (fun _ => true) demoNow (fun _ => 10)
    (fun _ => "d") noLogDraws 0 quietRun.1 quietRun.2 rfl

/-- Witness for C10 (amended) at the no-log run. -/
theorem synth_summary_consistency_witness :
    quietRun.1.logs_created = sumCounts quietRun.1.meal_breakdown
    ∧ quietRun.2.food_log.length = demoRunDb.food_log.length + quietRun.1.logs_created
    ∧ quietRun.1.unique_dates ≤ quietRun.1.logs_created
    ∧ quietRun.1.unique_dates ≤ 0 * 30 + 1
    ∧ (quietRun.1.unique_dates = 0 → quietRun.1.avg_calories_per_day = 0) :=
  synth_summary_consistency 1 demoRunDb (fun _ => true) demoNow (fun _ => 10)
    (fun _ => "d") noLogDraws 0 quietRun.1 quietRun.2 rfl rfl

/-- Fixture: a catalog whose only row has a NULL nutrition column. -/
def noFoodDb : Database :=
  ⟨["user", "food", "food_log"], [(1, "Oatmeal", none)], some 2000, []⟩

/-- The run against the no-nutrition catalog. -/
def noFoodRun : GenResult × Database :=
  create_demo_data_internal 1 noFoodDb (fun _ => true) demoNow (fun _ => 10)
    (fun _ => "d") noLogDraws 0

/-- Witness for C9 at the no-nutrition catalog. -/
theorem synth_no_foods_failure_witness :
    noFoodRun.1.success = false ∧ noFoodRun.2.food_log = noFoodDb.food_log :=
  synth_no_foods_failure 1 noFoodDb (fun _ => true) demoNow (fun _ => 10)
    (fun _ => "d") noLogDraws 0 noFoodRun.1 noFoodRun.2 rfl
    (by intro r hr
        rw [show noFoodDb.food = [(1, "Oatmeal", none)] from rfl,
          List.mem_singleton] at hr
        subst hr
        rfl)
